import Mathlib

/-!
Verification of the Zoho OAuth token lifecycle manager
(`src/crm_zoho/token_manager.py`, class `ZohoTokenManager`).

The Python class is shallowly embedded: the manager's mutable attributes
become an explicit `ManagerState` threaded through the operations, network
calls become an `Except Nat TokenResponse` oracle argument (a `.error s`
models an HTTP response whose `raise_for_status` raises with status `s`),
and the exceptions raised by the methods become the `ZohoError` sum.
Timestamps (`time.time()`, `expires_at`, `expires_in`) are modelled as
integers; the Python floats are compared with the same order structure.
-/

namespace Zoho

/-- The token dict, as the manager stores it.  A Python dict may lack any
of these keys, hence every field is an `Option`; `some ""` models a key
that is present but maps to the empty string — a distinct situation from
a missing key for `in` / `setdefault` tests. Extra response fields carried
opaquely by the dict play no role in the control flow and are omitted. -/
structure TokenRecord where
  access_token : Option String
  refresh_token : Option String
  expires_in : Option Int
  expires_at : Option Int
deriving Repr, DecidableEq

/-- Body of a successful token-endpoint response (`response.json()`),
before the manager adds `expires_at`. -/
structure TokenResponse where
  access_token : Option String
  refresh_token : Option String
  expires_in : Option Int
deriving Repr, DecidableEq

/-- Constructor arguments and class constants of `ZohoTokenManager`.
`accounts_server` is the value after the constructor's `rstrip("/")`.
`TOKEN_REFRESH_BUFFER_SECONDS` (class constant 300) and `ALWAYS_REFRESH`
(class constant `False`) are carried here so theorems can speak about
them; `zohoDefaultConfig` below fixes the class-constant values. -/
structure Config where
  client_id : String
  client_secret : String
  redirect_uri : String
  scope : String
  accounts_server : String
  TOKEN_REFRESH_BUFFER_SECONDS : Int
  ALWAYS_REFRESH : Bool
deriving Repr, DecidableEq

/-- The exceptions the manager's methods can raise.
`noAccessToken` is the `RuntimeError` raised by `get_valid_access_token`
when no usable record is held (its message embeds the authorization URL);
`missingRefreshToken` is the `RuntimeError` raised at the top of
`refresh_access_token`; `httpStatusError` is `httpx.HTTPStatusError` from
`response.raise_for_status()` (a non-success HTTP status);
`keyErrorAccessToken` is the dict `KeyError` on
`self.token_data["access_token"]`. -/
inductive ZohoError where
  | noAccessToken (message : String)
  | missingRefreshToken
  | httpStatusError (status : Nat)
  | keyErrorAccessToken
deriving Repr, DecidableEq

/-- Mutable state of a `ZohoTokenManager` instance together with the
durable copy: `token_data` is the in-memory attribute, `stored` the parsed
content of `.tokens.json` after the last successful write. -/
structure ManagerState where
  token_data : Option TokenRecord
  stored : Option TokenRecord
deriving Repr, DecidableEq

/-- UTF-8 bytes of one character, as natural numbers. -/
def utf8BytesOfChar (c : Char) : List Nat :=
  let n := c.toNat
  if n < 128 then [n]
  else if n < 2048 then [192 + n / 64, 128 + n % 64]
  else if n < 65536 then [224 + n / 4096, 128 + (n / 64) % 64, 128 + n % 64]
  else [240 + n / 262144, 128 + (n / 4096) % 64, 128 + (n / 64) % 64, 128 + n % 64]

/-- UTF-8 bytes of a string. -/
def utf8Bytes (s : String) : List Nat :=
  s.data.flatMap utf8BytesOfChar

/-- Uppercase hexadecimal digit, as CPython's `quote` emits. -/
def hexDigit (n : Nat) : Char :=
  if n < 10 then Char.ofNat (48 + n) else Char.ofNat (55 + n)

/-- Percent-encoding of one byte under CPython's `quote_plus`: space
becomes `+`; ASCII alphanumerics and `_ . - ~` pass through; every other
byte becomes `%XX`. -/
def quotePlusByte (b : Nat) : List Char :=
  if b = 32 then ['+']
  else if (48 ≤ b ∧ b ≤ 57) ∨ (65 ≤ b ∧ b ≤ 90) ∨ (97 ≤ b ∧ b ≤ 122)
      ∨ b = 95 ∨ b = 46 ∨ b = 45 ∨ b = 126 then
    [Char.ofNat b]
  else ['%', hexDigit (b / 16), hexDigit (b % 16)]

/-- `urllib.parse.quote_plus` on one string. -/
def quotePlus (s : String) : String :=
  String.mk ((utf8Bytes s).flatMap quotePlusByte)

/-- `urllib.parse.urlencode` over the ordered key-value pairs of the
params dict. -/
def urlencode (ps : List (String × String)) : String :=
  String.intercalate "&" (ps.map (fun p => quotePlus p.1 ++ "=" ++ quotePlus p.2))

/-- `ZohoTokenManager.get_authorization_url`. -/
def get_authorization_url (cfg : Config) : String :=
  cfg.accounts_server ++ "/oauth/v2/auth?" ++ urlencode
    [("scope", cfg.scope),
     ("client_id", cfg.client_id),
     ("response_type", "code"),
     ("redirect_uri", cfg.redirect_uri),
     ("access_type", "offline"),
     ("prompt", "consent")]

/-- Message of the `RuntimeError` raised by `get_valid_access_token` when
no token record with an access_token is held. -/
def noAccessTokenMessage (cfg : Config) : String :=
  "No access token available. Run initial OAuth flow:\n1. Visit: "
    ++ get_authorization_url cfg
    ++ "\n2. Authorize\n3. Copy ?code=...\n4. Call exchange_code_for_tokens(code)"

/-- The merge step at the top of `ZohoTokenManager._save_tokens`:
`if self.token_data and "refresh_token" in self.token_data:
token_data.setdefault("refresh_token", self.token_data["refresh_token"])`.
`setdefault` fills the key only when it is absent (`none`), never when it
is present with any value, the empty string included. -/
def mergeRefreshToken (old : Option TokenRecord) (cand : TokenRecord) : TokenRecord :=
  match old with
  | none => cand
  | some o =>
    match o.refresh_token with
    | none => cand
    | some rt =>
      match cand.refresh_token with
      | none => { cand with refresh_token := some rt }
      | some _ => cand

/-- `ZohoTokenManager._save_tokens` on the successful-write path: merge
the refresh token, set the attribute, write the file.  The Python dict is
mutated in place by `setdefault`, so the caller's reference sees the
merged record; the merged record is returned alongside the new state to
model that aliasing. -/
def _save_tokens (s : ManagerState) (cand : TokenRecord) : ManagerState × TokenRecord :=
  let merged := mergeRefreshToken s.token_data cand
  ({ token_data := some merged, stored := some merged }, merged)

/-- The record built from a token-endpoint response after the manager adds
`token_data["expires_at"] = time.time() + token_data.get("expires_in", 3600)`. -/
def recordOfResponse (r : TokenResponse) (now : Int) : TokenRecord :=
  { access_token := r.access_token
    refresh_token := r.refresh_token
    expires_in := r.expires_in
    expires_at := some (now + r.expires_in.getD 3600) }

/-- `ZohoTokenManager.exchange_code_for_tokens`.  `resp` is the network
oracle: `.error st` models `raise_for_status` raising on HTTP status
`st`; `.ok r` a successful response with body `r`.  On success the new
state and the saved (merged) record are returned. -/
def exchange_code_for_tokens (s : ManagerState) (now : Int)
    (resp : Except Nat TokenResponse) : Except ZohoError (ManagerState × TokenRecord) :=
  match resp with
  | .error st => .error (.httpStatusError st)
  | .ok r =>
    let td := recordOfResponse r now
    let (s1, merged) := _save_tokens s td
    .ok (s1, merged)

/-- `ZohoTokenManager.refresh_access_token`.  Raises `missingRefreshToken`
before any network contact when no record or no `refresh_token` key is
held; otherwise POSTs (consuming the oracle), applies
`new_data.setdefault("refresh_token", ...)`, stamps `expires_at`, and
saves. -/
def refresh_access_token (s : ManagerState) (now : Int)
    (resp : Except Nat TokenResponse) : Except ZohoError (ManagerState × TokenRecord) :=
  match s.token_data with
  | none => .error .missingRefreshToken
  | some td =>
    match td.refresh_token with
    | none => .error .missingRefreshToken
    | some rt =>
      match resp with
      | .error st => .error (.httpStatusError st)
      | .ok r =>
        let newData : TokenRecord :=
          { access_token := r.access_token
            refresh_token := match r.refresh_token with
              | none => some rt
              | some v => some v
            expires_in := r.expires_in
            expires_at := some (now + r.expires_in.getD 3600) }
        let (s1, merged) := _save_tokens s newData
        .ok (s1, merged)

/-- The final `return self.token_data["access_token"]` of
`get_valid_access_token`: a dict lookup that raises `KeyError` when the
key is gone. -/
def readAccessToken (s : ManagerState) : Except ZohoError (ManagerState × String) :=
  match s.token_data with
  | none => .error .keyErrorAccessToken
  | some td =>
    match td.access_token with
    | none => .error .keyErrorAccessToken
    | some a => .ok (s, a)

/-- `ZohoTokenManager.get_valid_access_token`.  The second component of
the returned pair records whether `self.refresh_access_token()` was
invoked during the call (the instrumentation needed to state the
refresh-decision properties); the first is the call's outcome. -/
def get_valid_access_token (cfg : Config) (s : ManagerState) (now : Int)
    (resp : Except Nat TokenResponse) :
    Except ZohoError (ManagerState × String) × Bool :=
  match s.token_data with
  | none => (.error (.noAccessToken (noAccessTokenMessage cfg)), false)
  | some td =>
    if td.access_token.isNone then
      (.error (.noAccessToken (noAccessTokenMessage cfg)), false)
    else
      let expires_at := td.expires_at.getD 0
      if cfg.ALWAYS_REFRESH then
        match refresh_access_token s now resp with
        | .error e => (.error e, true)
        | .ok (s1, _) => (readAccessToken s1, true)
      else if now ≥ expires_at - cfg.TOKEN_REFRESH_BUFFER_SECONDS then
        match refresh_access_token s now resp with
        | .error e => (.error e, true)
        | .ok (s1, _) => (readAccessToken s1, true)
      else
        (readAccessToken s, false)

/-- `ZohoTokenManager.is_authenticated`: `try get_valid_access_token;
return True; except Exception: return False`. -/
def is_authenticated (cfg : Config) (s : ManagerState) (now : Int)
    (resp : Except Nat TokenResponse) : Bool :=
  match (get_valid_access_token cfg s now resp).1 with
  | .ok _ => true
  | .error _ => false

/-- Outcome of reading and JSON-parsing `.tokens.json` in `_load_tokens`:
the file may be missing, parse to a record, fail to parse
(`json.JSONDecodeError`), or fail to read (`IOError`). -/
inductive ReadOutcome where
  | noFile
  | ok (r : TokenRecord)
  | jsonDecodeError
  | ioError
deriving Repr, DecidableEq

/-- `ZohoTokenManager._load_tokens`: a missing file leaves `token_data`
as `None`; the two caught exception classes print a warning and set
`token_data = None`; the function is total — no exception escapes. -/
def _load_tokens (raw : ReadOutcome) : Option TokenRecord :=
  match raw with
  | .noFile => none
  | .ok r => some r
  | .jsonDecodeError => none
  | .ioError => none

/-- Manager state right after `__init__` (which calls `_load_tokens`).
A corrupt file's bytes are not representable as a parsed record, so
`stored` is `none` in the non-`ok` cases. -/
def initManager (raw : ReadOutcome) : ManagerState :=
  { token_data := _load_tokens raw
    stored := match raw with | .ok r => some r | _ => none }

/-- The class-constant configuration of `ZohoTokenManager` with the
`ZohoAdapter` defaults for the environment-derived values. -/
def zohoDefaultConfig : Config :=
  { client_id := "client-id"
    client_secret := "client-secret"
    redirect_uri := "http://localhost:8080/oauth/callback"
    scope := "ZohoCRM.modules.ALL"
    accounts_server := "https://accounts.zoho.com"
    TOKEN_REFRESH_BUFFER_SECONDS := 300
    ALWAYS_REFRESH := false }

/-- Does the record carry a refresh_token key mapping to a non-empty
string?  This is the spec's notion of "carries a non-empty
refresh_token"; the code's merge tests key presence only. -/
def hasNonEmptyRefreshToken (td : TokenRecord) : Bool :=
  match td.refresh_token with
  | none => false
  | some v => decide (v ≠ "")

/-- Is `p` a leading segment of `l`? -/
def charsPre : List Char → List Char → Bool
  | [], _ => true
  | _ :: _, [] => false
  | a :: as, b :: bs => a == b && charsPre as bs

/-- Does `needle` occur inside `hay`? -/
def charsSub (needle : List Char) : List Char → Bool
  | [] => charsPre needle []
  | c :: t => charsPre needle (c :: t) || charsSub needle t

/-- Modelled from the spec (section 6, consent redirect): a well-formed
authorization URL for configuration `cfg` starts with the accounts
server's `/oauth/v2/auth?` endpoint and its query string carries
`response_type=code`, `access_type=offline` and `prompt=consent`. -/
def specWellFormedAuthUrl (cfg : Config) (u : String) : Bool :=
  charsPre (cfg.accounts_server ++ "/oauth/v2/auth?").data u.data
    && charsSub "response_type=code".data u.data
    && charsSub "access_type=offline".data u.data
    && charsSub "prompt=consent".data u.data

/-- Filesystem actions on or around the token file.  `openTruncate` is
`open(self.TOKEN_FILE, "w")` (truncates the target in place);
`writeContent c` is `json.dump` completing; `chmod` is `os.chmod`;
`writeTemp` and `renameTempToTarget` are the actions an atomic
write-temp-then-rename discipline would use instead. -/
inductive FileOp where
  | openTruncate
  | writeContent (c : String)
  | chmod (mode : Nat)
  | writeTemp (c : String)
  | renameTempToTarget
deriving Repr, DecidableEq

/-- The sequence of filesystem actions `_save_tokens` performs on the
token file when serializing the merged record to `c`:
`open(self.TOKEN_FILE, "w")`, `json.dump(token_data, f, indent=2)`,
`os.chmod(self.TOKEN_FILE, 0o600)`. -/
def _save_tokens_file_ops (c : String) : List FileOp :=
  [FileOp.openTruncate, FileOp.writeContent c, FileOp.chmod 0o600]

/-- Does this action mutate the target file other than by an atomic
rename? -/
def mutatesTargetInPlace : FileOp → Bool
  | .openTruncate => true
  | .writeContent _ => true
  | _ => false

/-- Modelled from the spec (sections 4.1 and 5): an atomic replace
discipline never mutates the target in place — new content arrives in a
temporary file which is then renamed over the target. -/
def specAtomicReplace (ops : List FileOp) : Bool :=
  ops.all (fun op => !mutatesTargetInPlace op)
    && ops.any (fun op => match op with | .renameTempToTarget => true | _ => false)

/-- Content of the target file after one action, `tmp` tracking the
temporary file's content. -/
def applyFileOp : String × String → FileOp → String × String
  | (_, tmp), .openTruncate => ("", tmp)
  | (_, tmp), .writeContent c => (c, tmp)
  | (tgt, tmp), .chmod _ => (tgt, tmp)
  | (tgt, _), .writeTemp c => (tgt, c)
  | (_, tmp), .renameTempToTarget => (tmp, tmp)

/-- Target-file content after running a (possibly interrupted) list of
actions, starting from previous valid content `init`. -/
def runFileOps (init : String) (ops : List FileOp) : String :=
  (ops.foldl applyFileOp (init, "")).1

/-! Two-caller interleaving model of `get_valid_access_token`, for the
single-in-flight-refresh property.  Each caller is a thread owning a
program counter over the method's phases; `token_data` (the `self`
attributes) is the shared state.  The phase boundaries are points where
the Python interpreter can switch threads: after the staleness check and
around the blocking network call inside `refresh_access_token`. -/

/-- Phase of one caller inside `get_valid_access_token`: about to run the
guard (`check`), about to invoke `refresh_access_token` (`doRefresh`),
about to run `return self.token_data["access_token"]` (`readBack`), or
returned/raised (`finished`). -/
inductive ThreadPc where
  | check
  | doRefresh
  | readBack
  | finished (r : Except ZohoError String)
deriving Repr

/-- The two callers plus shared manager state; `refreshCalls` counts the
refresh POSTs actually issued to the token endpoint. -/
structure ConcState where
  shared : ManagerState
  pc0 : ThreadPc
  pc1 : ThreadPc
  refreshCalls : Nat
deriving Repr

/-- One atomic step of a caller at phase `pc`, reading and writing the
shared state; returns the new shared state, the caller's next phase, and
how many refresh POSTs the step issued (1 exactly when the endpoint was
contacted: `refresh_access_token` raising for a missing refresh token
happens before any POST). -/
def threadStep (cfg : Config) (now : Int) (resp : Except Nat TokenResponse)
    (shared : ManagerState) : ThreadPc → ManagerState × ThreadPc × Nat
  | .check =>
    match shared.token_data with
    | none => (shared, .finished (.error (.noAccessToken (noAccessTokenMessage cfg))), 0)
    | some td =>
      if td.access_token.isNone then
        (shared, .finished (.error (.noAccessToken (noAccessTokenMessage cfg))), 0)
      else if cfg.ALWAYS_REFRESH then
        (shared, .doRefresh, 0)
      else if now ≥ td.expires_at.getD 0 - cfg.TOKEN_REFRESH_BUFFER_SECONDS then
        (shared, .doRefresh, 0)
      else
        (shared, .readBack, 0)
  | .doRefresh =>
    match refresh_access_token shared now resp with
    | .error .missingRefreshToken => (shared, .finished (.error .missingRefreshToken), 0)
    | .error e => (shared, .finished (.error e), 1)
    | .ok (s1, _) => (s1, .readBack, 1)
  | .readBack =>
    match readAccessToken shared with
    | .ok (_, a) => (shared, .finished (.ok a), 0)
    | .error e => (shared, .finished (.error e), 0)
  | .finished r => (shared, .finished r, 0)

/-- Scheduler step: run thread `tid` (0 or 1) for one phase. -/
def sysStep (cfg : Config) (now : Int) (resp : Except Nat TokenResponse)
    (st : ConcState) (tid : Nat) : ConcState :=
  if tid = 0 then
    let r := threadStep cfg now resp st.shared st.pc0
    { st with shared := r.1, pc0 := r.2.1, refreshCalls := st.refreshCalls + r.2.2 }
  else
    let r := threadStep cfg now resp st.shared st.pc1
    { st with shared := r.1, pc1 := r.2.1, refreshCalls := st.refreshCalls + r.2.2 }

/-- Run the two-caller system under schedule `sched` (a list of thread
ids). -/
def runSched (cfg : Config) (now : Int) (resp : Except Nat TokenResponse)
    (sched : List Nat) (st : ConcState) : ConcState :=
  sched.foldl (sysStep cfg now resp) st

/-- Both callers start at the guard with shared state `s`. -/
def initConc (s : ManagerState) : ConcState :=
  { shared := s, pc0 := .check, pc1 := .check, refreshCalls := 0 }

/-! Concrete fixtures used by the counterexamples and witnesses. -/

/-- A held record carrying the non-empty refresh token "rt-1". -/
def c1PriorRecord : TokenRecord :=
  { access_token := some "at-0", refresh_token := some "rt-1"
    expires_in := some 3600, expires_at := some 1000 }

/-- Manager holding `c1PriorRecord` in memory and on disk. -/
def c1Prior : ManagerState :=
  { token_data := some c1PriorRecord, stored := some c1PriorRecord }

/-- Candidate whose refresh_token key is present but maps to the empty
string. -/
def c1CandEmpty : TokenRecord :=
  { access_token := some "at-1", refresh_token := some ""
    expires_in := some 3600, expires_at := some 2000 }

/-- Candidate lacking the refresh_token key. -/
def c1CandNoKey : TokenRecord :=
  { access_token := some "at-1", refresh_token := none
    expires_in := some 3600, expires_at := some 2000 }

/-- A record issued at time 0 with expires_in 3600. -/
def c2Record : TokenRecord :=
  { access_token := some "at-0", refresh_token := some "rt-0"
    expires_in := some 3600, expires_at := some 3600 }

/-- Manager holding `c2Record`. -/
def c2State : ManagerState :=
  { token_data := some c2Record, stored := some c2Record }

/-- A successful refresh response. -/
def c2Resp : Except Nat TokenResponse :=
  .ok { access_token := some "at-1", refresh_token := none, expires_in := some 3600 }

/-- A record expiring at `ea`. -/
def c3Record (ea : Int) : TokenRecord :=
  { access_token := some "at-0", refresh_token := some "rt-0"
    expires_in := some 3600, expires_at := some ea }

/-- Shared state whose held record expires at `ea`. -/
def c3StaleState (ea : Int) : ManagerState :=
  { token_data := some (c3Record ea), stored := some (c3Record ea) }

/-- The refresh response both callers' refresh calls receive. -/
def c3Resp : Except Nat TokenResponse :=
  .ok { access_token := some "at-1", refresh_token := none, expires_in := some 3600 }

/-- A stale-but-usable record (expired at 1000). -/
def c4Record : TokenRecord :=
  { access_token := some "at-0", refresh_token := some "rt-0"
    expires_in := some 3600, expires_at := some 1000 }

/-- Manager holding `c4Record`. -/
def c4State : ManagerState :=
  { token_data := some c4Record, stored := some c4Record }

/-- Manager holding a record whose refresh token is "rt-0". -/
def c5State : ManagerState :=
  { token_data := some c4Record, stored := some c4Record }

/-- A refresh response without a refresh_token key. -/
def c5Resp : TokenResponse :=
  { access_token := some "at-1", refresh_token := none, expires_in := some 3600 }

/-- The record `refresh_access_token c5State 1000 (.ok c5Resp)` saves. -/
def c5OutRecord : TokenRecord :=
  { access_token := some "at-1", refresh_token := some "rt-0"
    expires_in := some 3600, expires_at := some 4600 }

/-- The state after that refresh. -/
def c5OutState : ManagerState :=
  { token_data := some c5OutRecord, stored := some c5OutRecord }

/-- An exchange response whose token expires in 100 seconds — less than
the 300-second refresh buffer. -/
def c6ExResp : TokenResponse :=
  { access_token := some "at-ex", refresh_token := some "rt-ex", expires_in := some 100 }

/-- The refresh response served to the immediately following
`get_valid_access_token` call. -/
def c6RefResp : Except Nat TokenResponse :=
  .ok { access_token := some "at-rf", refresh_token := none, expires_in := some 3600 }

/-- Record held after `exchange_code_for_tokens` of `c6ExResp` at time 0. -/
def c6ExRecord : TokenRecord :=
  { access_token := some "at-ex", refresh_token := some "rt-ex"
    expires_in := some 100, expires_at := some 100 }

/-- State after that exchange. -/
def c6AfterExchange : ManagerState :=
  { token_data := some c6ExRecord, stored := some c6ExRecord }

/-- Record held after the follow-up call's refresh. -/
def c6AfterRefreshRecord : TokenRecord :=
  { access_token := some "at-rf", refresh_token := some "rt-ex"
    expires_in := some 3600, expires_at := some 3600 }

/-- State after the follow-up call's refresh. -/
def c6AfterRefresh : ManagerState :=
  { token_data := some c6AfterRefreshRecord, stored := some c6AfterRefreshRecord }

/-- A held record with an access_token but no refresh_token key,
already expired. -/
def c7Record : TokenRecord :=
  { access_token := some "at-0", refresh_token := none
    expires_in := some 3600, expires_at := some 1000 }

/-- Manager holding `c7Record`. -/
def c7State : ManagerState :=
  { token_data := some c7Record, stored := some c7Record }

/-- A refresh response without the expires_in key. -/
def c10Resp : TokenResponse :=
  { access_token := some "at-1", refresh_token := none, expires_in := none }

/-- The record `refresh_access_token c5State 1000 (.ok c10Resp)` saves:
`expires_at` falls back to the call time plus 3600. -/
def c10OutRecord : TokenRecord :=
  { access_token := some "at-1", refresh_token := some "rt-0"
    expires_in := none, expires_at := some 4600 }

/-- The state after that refresh. -/
def c10OutState : ManagerState :=
  { token_data := some c10OutRecord, stored := some c10OutRecord }

/-! Helper lemmas about the save-time merge. -/

/-- The merge step only ever touches the refresh_token field:
access_token passes through. -/
theorem mergeRefreshToken_access_token (old : Option TokenRecord) (cand : TokenRecord) :
    (mergeRefreshToken old cand).access_token = cand.access_token := by
  rcases old with _ | o
  · rfl
  · rcases ho : o.refresh_token with _ | rt
    · simp [mergeRefreshToken, ho]
    · rcases hc : cand.refresh_token with _ | v <;> simp [mergeRefreshToken, ho, hc]

/-- The merge step only ever touches the refresh_token field:
expires_at passes through. -/
theorem mergeRefreshToken_expires_at (old : Option TokenRecord) (cand : TokenRecord) :
    (mergeRefreshToken old cand).expires_at = cand.expires_at := by
  rcases old with _ | o
  · rfl
  · rcases ho : o.refresh_token with _ | rt
    · simp [mergeRefreshToken, ho]
    · rcases hc : cand.refresh_token with _ | v <;> simp [mergeRefreshToken, ho, hc]

/-- Claim C1, counterexample: the held record carries the non-empty
refresh token "rt-1", the candidate's refresh_token key is present but
maps to the empty string; `setdefault` does not fire, so the record
persisted and held after the save carries an empty refresh_token — the
prior token is overwritten with an empty value, violating the claim's
"never overwritten with an empty value" clause. -/
theorem c1_counterexample :
    hasNonEmptyRefreshToken c1PriorRecord = true
    ∧ (_save_tokens c1Prior c1CandEmpty).1.token_data = some c1CandEmpty
    ∧ (_save_tokens c1Prior c1CandEmpty).1.stored = some c1CandEmpty
    ∧ hasNonEmptyRefreshToken c1CandEmpty = false := by
  refine ⟨by decide, rfl, rfl, by decide⟩

/-- Claim C1 (amended): preservation is keyed on key presence, not
non-emptiness.  If the previously held record has a refresh_token key and
the candidate lacks the key, the record persisted and held in memory
after the save carries the prior refresh_token; and once a held record
has a refresh_token key, every record persisted by a save has the key —
it is only ever overwritten by a value the candidate itself carries
(which may be empty). -/
theorem c1_refresh_token_durability (s : ManagerState) (old cand : TokenRecord)
    (hs : s.token_data = some old) (hold : old.refresh_token.isSome = true) :
    (cand.refresh_token = none →
      (_save_tokens s cand).2.refresh_token = old.refresh_token
      ∧ (_save_tokens s cand).1.token_data = some (_save_tokens s cand).2
      ∧ (_save_tokens s cand).1.stored = some (_save_tokens s cand).2)
    ∧ ((_save_tokens s cand).2.refresh_token.isSome = true) := by
  rcases ho : old.refresh_token with _ | rt
  · rw [ho] at hold; cases hold
  · constructor
    · intro hc
      refine ⟨?_, rfl, rfl⟩
      simp [_save_tokens, mergeRefreshToken, hs, ho, hc]
    · rcases hc : cand.refresh_token with _ | v <;>
        simp [_save_tokens, mergeRefreshToken, hs, ho, hc]

/-- Claim C1, witness: saving a candidate without the refresh_token key
over `c1Prior` keeps the prior token "rt-1". -/
theorem c1_refresh_token_durability_witness :
    (_save_tokens c1Prior c1CandNoKey).2.refresh_token = some "rt-1"
    ∧ ((_save_tokens c1Prior c1CandNoKey).2.refresh_token.isSome = true) := by
  have h := c1_refresh_token_durability c1Prior c1PriorRecord c1CandNoKey rfl (by decide)
  exact ⟨(h.1 rfl).1, h.2⟩

/-- Claim C2: on a held record with an access_token, with the
always-refresh flag off, `get_valid_access_token` invokes
`refresh_access_token` iff now is at or past expires_at minus the buffer;
with the flag on it refreshes on every call. -/
theorem c2_refresh_decision (cfg : Config) (s : ManagerState) (td : TokenRecord)
    (a : String) (now ea : Int) (resp : Except Nat TokenResponse)
    (hs : s.token_data = some td) (ha : td.access_token = some a)
    (he : td.expires_at = some ea) :
    (cfg.ALWAYS_REFRESH = false →
      ((get_valid_access_token cfg s now resp).2 = true ↔
        now ≥ ea - cfg.TOKEN_REFRESH_BUFFER_SECONDS))
    ∧ (cfg.ALWAYS_REFRESH = true →
        (get_valid_access_token cfg s now resp).2 = true) := by
  constructor
  · intro hoff
    by_cases hnow : now ≥ ea - cfg.TOKEN_REFRESH_BUFFER_SECONDS
    · rcases hres : refresh_access_token s now resp with e | p <;>
        simp [get_valid_access_token, hs, ha, he, hoff, hnow, hres]
    · simp [get_valid_access_token, hs, ha, he, hoff, hnow]
  · intro hon
    rcases hres : refresh_access_token s now resp with e | p <;>
      simp [get_valid_access_token, hs, ha, he, hon, hres]

/-- Claim C2, witness (the spec's scenario): buffer 300, token issued at
time 0 with expires_in 3600; a call at 3301 refreshes, a call at 3299
does not. -/
theorem c2_refresh_decision_witness :
    (get_valid_access_token zohoDefaultConfig c2State 3301 c2Resp).2 = true
    ∧ (get_valid_access_token zohoDefaultConfig c2State 3299 c2Resp).2 = false := by
  constructor
  · exact ((c2_refresh_decision zohoDefaultConfig c2State c2Record "at-0" 3301 3600
      c2Resp rfl rfl rfl).1 rfl).mpr (by decide)
  · have h := (c2_refresh_decision zohoDefaultConfig c2State c2Record "at-0" 3299 3600
      c2Resp rfl rfl rfl).1 rfl
    rw [← Bool.not_eq_true, h]
    decide

/-- Claim C3, counterexample: with a stale token (expired at 1000, call
time 1000 ≥ 1000 − 300) and two concurrent callers, the interleaving in
which both callers run the staleness check before either's refresh
completes issues two refresh calls (network POST plus persistence write
each), not exactly one; the code has no lock or in-flight marker to make
the second caller await the first. -/
theorem c3_counterexample :
    (runSched zohoDefaultConfig 1000 c3Resp [0, 1, 0, 1, 0, 1]
        (initConc (c3StaleState 1000))).refreshCalls = 2
    ∧ (runSched zohoDefaultConfig 1000 c3Resp [0, 1, 0, 1, 0, 1]
        (initConc (c3StaleState 1000))).pc0 = .finished (.ok "at-1")
    ∧ (runSched zohoDefaultConfig 1000 c3Resp [0, 1, 0, 1, 0, 1]
        (initConc (c3StaleState 1000))).pc1 = .finished (.ok "at-1") := by
  refine ⟨by decide, rfl, rfl⟩

/-- Claim C3 (amended): the code has no single-flight guard.  When
now ≥ expires_at − buffer, each caller that runs the staleness check
before any refresh completes issues its own refresh call, so two
concurrent callers can issue two refreshes; only when the callers run
sequentially is exactly one refresh issued, the second caller reusing the
first's refreshed record. -/
theorem c3_no_single_flight_guard (now ea : Int) (hst : now ≥ ea - 300) :
    (runSched zohoDefaultConfig now c3Resp [0, 0, 0, 1, 1]
        (initConc (c3StaleState ea))).refreshCalls = 1
    ∧ (runSched zohoDefaultConfig now c3Resp [0, 0, 0, 1, 1]
        (initConc (c3StaleState ea))).pc0 = .finished (.ok "at-1")
    ∧ (runSched zohoDefaultConfig now c3Resp [0, 0, 0, 1, 1]
        (initConc (c3StaleState ea))).pc1 = .finished (.ok "at-1")
    ∧ (runSched zohoDefaultConfig now c3Resp [0, 1, 0, 1]
        (initConc (c3StaleState ea))).refreshCalls = 2 := by
  have h1 : ea - 300 ≤ now := by omega
  have h2 : ¬ (now + 3600 - 300 ≤ now) := by omega
  refine ⟨?_, ?_, ?_, ?_⟩ <;>
    simp [runSched, sysStep, threadStep, initConc, c3StaleState, c3Record, c3Resp,
      refresh_access_token, _save_tokens, mergeRefreshToken, readAccessToken,
      zohoDefaultConfig, h1, h2]

/-- Claim C3, witness: at time 1000 with a record expired at 1000, the
sequential schedule issues one refresh, the interleaved schedule two. -/
theorem c3_no_single_flight_guard_witness :
    (runSched zohoDefaultConfig 1000 c3Resp [0, 0, 0, 1, 1]
        (initConc (c3StaleState 1000))).refreshCalls = 1
    ∧ (runSched zohoDefaultConfig 1000 c3Resp [0, 1, 0, 1]
        (initConc (c3StaleState 1000))).refreshCalls = 2 := by
  have h := c3_no_single_flight_guard 1000 1000 (by decide)
  exact ⟨h.1, h.2.2.2⟩

/-- Claim C4, counterexample: with a stale-but-usable record held and the
authorization server answering the refresh POST with HTTP 400,
`get_valid_access_token` fails with the propagated `httpStatusError 400`
(the `httpx.HTTPStatusError` from `raise_for_status`), not with the
reauthorization error that carries the authorization URL — the claim's
"fails with ReauthorizationRequired" is false on the code. -/
theorem c4_counterexample :
    (get_valid_access_token zohoDefaultConfig c4State 1000 (.error 400)).1
      = .error (.httpStatusError 400) := by
  rfl

/-- Claim C4 (amended): whenever a refresh attempt fails with an endpoint
error (non-success HTTP status), `get_valid_access_token` does not return
the previous access_token as a fallback — it fails — but the failure is
the endpoint error propagated unchanged, not a reauthorization error;
`get_authorization_url` still returns a well-formed URL. -/
theorem c4_refresh_failure (cfg : Config) (s : ManagerState) (td : TokenRecord)
    (a rt : String) (now ea : Int) (st : Nat)
    (hs : s.token_data = some td) (ha : td.access_token = some a)
    (hr : td.refresh_token = some rt) (he : td.expires_at = some ea)
    (htrig : cfg.ALWAYS_REFRESH = true ∨ now ≥ ea - cfg.TOKEN_REFRESH_BUFFER_SECONDS) :
    get_valid_access_token cfg s now (.error st) = (.error (.httpStatusError st), true)
    ∧ specWellFormedAuthUrl zohoDefaultConfig (get_authorization_url zohoDefaultConfig)
        = true := by
  refine ⟨?_, by decide⟩
  rcases htrig with hon | hnow
  · simp [get_valid_access_token, refresh_access_token, hs, ha, hr, he, hon]
  · have h1 : ea - cfg.TOKEN_REFRESH_BUFFER_SECONDS ≤ now := hnow
    rcases hflag : cfg.ALWAYS_REFRESH with _ | _ <;>
      simp [get_valid_access_token, refresh_access_token, hs, ha, hr, he, hflag, h1]

/-- Claim C4, witness: stale record `c4State` at time 1000, refresh
rejected with HTTP 400. -/
theorem c4_refresh_failure_witness :
    get_valid_access_token zohoDefaultConfig c4State 1000 (.error 400)
      = (.error (.httpStatusError 400), true)
    ∧ specWellFormedAuthUrl zohoDefaultConfig (get_authorization_url zohoDefaultConfig)
        = true := by
  exact c4_refresh_failure zohoDefaultConfig c4State c4Record "at-0" "rt-0" 1000 1000 400
    rfl rfl rfl rfl (Or.inr (by decide))

/-- Claim C5: after a successful code exchange and after a successful
refresh, the held and persisted record's expires_at is the call time plus
the server-reported expires_in — never carried over from the stale
pre-call record (the starting state `s` is arbitrary). -/
theorem c5_monotonic_expiry (s : ManagerState) (now : Int) (r : TokenResponse)
    (e : Int) (he : r.expires_in = some e) :
    (∀ s1 td1, exchange_code_for_tokens s now (.ok r) = .ok (s1, td1) →
      td1.expires_at = some (now + e)
      ∧ s1.token_data = some td1 ∧ s1.stored = some td1)
    ∧ (∀ s1 td1, refresh_access_token s now (.ok r) = .ok (s1, td1) →
      td1.expires_at = some (now + e)
      ∧ s1.token_data = some td1 ∧ s1.stored = some td1) := by
  constructor
  · intro s1 td1 h
    simp only [exchange_code_for_tokens, _save_tokens, Except.ok.injEq, Prod.mk.injEq] at h
    obtain ⟨hs1, htd1⟩ := h
    subst hs1; subst htd1
    refine ⟨?_, rfl, rfl⟩
    rw [mergeRefreshToken_expires_at]
    simp [recordOfResponse, he]
  · intro s1 td1 h
    rcases hst : s.token_data with _ | td
    · rw [refresh_access_token, hst] at h; cases h
    · rcases hrt : td.refresh_token with _ | rt
      · rw [refresh_access_token, hst] at h; simp [hrt] at h
      · rw [refresh_access_token, hst] at h
        simp only [hrt, _save_tokens, Except.ok.injEq, Prod.mk.injEq] at h
        obtain ⟨hs1, htd1⟩ := h
        subst hs1; subst htd1
        refine ⟨?_, rfl, rfl⟩
        rw [mergeRefreshToken_expires_at]
        simp [he]

/-- Claim C5, witness: refreshing `c5State` at time 1000 with a response
reporting expires_in 3600 yields a record expiring at 4600, held and
persisted. -/
theorem c5_monotonic_expiry_witness :
    c5OutRecord.expires_at = some 4600
    ∧ c5OutState.token_data = some c5OutRecord
    ∧ c5OutState.stored = some c5OutRecord := by
  have h := (c5_monotonic_expiry c5State 1000 c5Resp 3600 rfl).2 c5OutState c5OutRecord
    (by rfl)
  exact h

/-- Claim C6, counterexample: the authorization server accepts the
exchange but reports expires_in 100 (less than the 300-second buffer);
the immediately following `get_valid_access_token` call at the same
instant does trigger a refresh (second component `true`) and returns the
refreshed token "at-rf", not the just-issued "at-ex". -/
theorem c6_counterexample :
    exchange_code_for_tokens (initManager .noFile) 0 (.ok c6ExResp)
      = .ok (c6AfterExchange, c6ExRecord)
    ∧ (get_valid_access_token zohoDefaultConfig c6AfterExchange 0 c6RefResp).2 = true
    ∧ (get_valid_access_token zohoDefaultConfig c6AfterExchange 0 c6RefResp).1
      = .ok (c6AfterRefresh, "at-rf") := by
  refine ⟨rfl, rfl, rfl⟩

/-- Claim C6 (amended): the round trip holds provided the response's
effective expires_in (server-reported, defaulting to 3600) exceeds the
refresh buffer and the response carries an access_token: exchanging the
code and immediately (same clock time, always-refresh off) requesting a
token returns the just-issued access_token with no refresh invoked. -/
theorem c6_round_trip (cfg : Config) (s : ManagerState) (now : Int)
    (r : TokenResponse) (a : String) (resp2 : Except Nat TokenResponse)
    (ha : r.access_token = some a)
    (halways : cfg.ALWAYS_REFRESH = false)
    (hfresh : r.expires_in.getD 3600 > cfg.TOKEN_REFRESH_BUFFER_SECONDS) :
    ∀ s1 td1, exchange_code_for_tokens s now (.ok r) = .ok (s1, td1) →
      get_valid_access_token cfg s1 now resp2 = (.ok (s1, a), false) := by
  intro s1 td1 h
  simp only [exchange_code_for_tokens, _save_tokens, Except.ok.injEq, Prod.mk.injEq] at h
  obtain ⟨hs1, htd1⟩ := h
  subst hs1; subst htd1
  have hacc : (mergeRefreshToken s.token_data (recordOfResponse r now)).access_token
      = some a := by
    rw [mergeRefreshToken_access_token]; simp [recordOfResponse, ha]
  have hexp : (mergeRefreshToken s.token_data (recordOfResponse r now)).expires_at
      = some (now + r.expires_in.getD 3600) := by
    rw [mergeRefreshToken_expires_at]; simp [recordOfResponse]
  have hguard : ¬ (now + r.expires_in.getD 3600 - cfg.TOKEN_REFRESH_BUFFER_SECONDS ≤ now) := by
    omega
  simp [get_valid_access_token, readAccessToken, hacc, hexp, halways, hguard]

/-- Claim C6, witness: exchange at time 0 with expires_in 3600 followed
immediately by a token request returns the just-issued token without a
refresh. -/
theorem c6_round_trip_witness :
    get_valid_access_token zohoDefaultConfig c6AfterRefresh 0 c6RefResp
      = (.ok (c6AfterRefresh, "at-rf"), false) := by
  have h := c6_round_trip zohoDefaultConfig (initManager .noFile) 0
    { access_token := some "at-rf", refresh_token := some "rt-ex", expires_in := some 3600 }
    "at-rf" c6RefResp rfl rfl (by decide) c6AfterRefresh c6AfterRefreshRecord (by rfl)
  exact h

/-- Claim C7, counterexample: a held record with an access_token but no
refresh_token key, already expired, at call time 1000: the refresh is
required, and `get_valid_access_token` fails with `missingRefreshToken`
(the `RuntimeError` "Missing refresh token. Run OAuth flow again."),
whose message carries no authorization URL — the claim's "carrying a
fresh Authorization URL" is false for this case. -/
theorem c7_counterexample :
    (get_valid_access_token zohoDefaultConfig c7State 1000 c2Resp).1
      = .error .missingRefreshToken := by
  rfl

/-- Claim C7 (amended): with no record at all, or a record lacking
access_token, `get_valid_access_token` fails with the reauthorization
error whose message embeds a fresh authorization URL
(`noAccessTokenMessage` is built around `get_authorization_url`); when a
refresh is required but refresh_token is missing it fails with the
missing-refresh-token error, which tells the operator to rerun the OAuth
flow but carries no URL; and `refresh_access_token` fails identically for
every network oracle — the endpoint is never contacted — when
refresh_token is absent. -/
theorem c7_unbootstrapped (cfg : Config) (now : Int) (resp : Except Nat TokenResponse) :
    (∀ s : ManagerState, s.token_data = none →
      get_valid_access_token cfg s now resp
        = (.error (.noAccessToken (noAccessTokenMessage cfg)), false))
    ∧ (∀ s td, s.token_data = some td → td.access_token = none →
      get_valid_access_token cfg s now resp
        = (.error (.noAccessToken (noAccessTokenMessage cfg)), false))
    ∧ (∀ s td a, s.token_data = some td → td.access_token = some a →
        td.refresh_token = none →
        (cfg.ALWAYS_REFRESH = true
          ∨ now ≥ td.expires_at.getD 0 - cfg.TOKEN_REFRESH_BUFFER_SECONDS) →
        (get_valid_access_token cfg s now resp).1 = .error .missingRefreshToken)
    ∧ (∀ s td, s.token_data = some td → td.refresh_token = none →
        ∀ resp2 : Except Nat TokenResponse,
          refresh_access_token s now resp2 = .error .missingRefreshToken) := by
  refine ⟨?_, ?_, ?_, ?_⟩
  · intro s h
    simp [get_valid_access_token, h]
  · intro s td hs hta
    simp [get_valid_access_token, hs, hta]
  · intro s td a hs hta hrt htrig
    rcases htrig with hon | hnow
    · simp [get_valid_access_token, refresh_access_token, hs, hta, hrt, hon]
    · have h1 : td.expires_at.getD 0 - cfg.TOKEN_REFRESH_BUFFER_SECONDS ≤ now := hnow
      rcases hflag : cfg.ALWAYS_REFRESH with _ | _ <;>
        simp [get_valid_access_token, refresh_access_token, hs, hta, hrt, hflag, h1]
  · intro s td hs hrt resp2
    simp [refresh_access_token, hs, hrt]

/-- Claim C7, witness: the concrete instances — an empty manager, a
record without access_token, and `c7State` (expired, no refresh_token). -/
theorem c7_unbootstrapped_witness :
    get_valid_access_token zohoDefaultConfig (initManager .noFile) 1000 c2Resp
      = (.error (.noAccessToken (noAccessTokenMessage zohoDefaultConfig)), false)
    ∧ (get_valid_access_token zohoDefaultConfig c7State 1000 c2Resp).1
      = .error .missingRefreshToken
    ∧ refresh_access_token c7State 1000 (.error 503) = .error .missingRefreshToken := by
  have h := c7_unbootstrapped zohoDefaultConfig 1000 c2Resp
  refine ⟨h.1 (initManager .noFile) rfl, ?_, h.2.2.2 c7State c7Record rfl rfl (.error 503)⟩
  exact h.2.2.1 c7State c7Record "at-0" rfl rfl rfl (Or.inr (by decide))

/-- Claim C8: when reading the token file raises `json.JSONDecodeError`
or `IOError`, `_load_tokens` catches it (no exception escapes — the model
of the method is total on these outcomes), the manager starts with
`token_data = None` (the Unbootstrapped state), and `is_authenticated`
returns false for every configuration, time, and network oracle. -/
theorem c8_corrupt_file_soft_load (raw : ReadOutcome)
    (h : raw = .jsonDecodeError ∨ raw = .ioError) :
    _load_tokens raw = none
    ∧ (initManager raw).token_data = none
    ∧ ∀ (cfg : Config) (now : Int) (resp : Except Nat TokenResponse),
        is_authenticated cfg (initManager raw) now resp = false := by
  rcases h with h | h <;> subst h <;> exact ⟨rfl, rfl, fun _ _ _ => rfl⟩

/-- Claim C8, witness: a file with invalid JSON. -/
theorem c8_corrupt_file_soft_load_witness :
    _load_tokens .jsonDecodeError = none
    ∧ is_authenticated zohoDefaultConfig (initManager .jsonDecodeError) 0 (.error 500)
      = false := by
  have h := c8_corrupt_file_soft_load .jsonDecodeError (Or.inl rfl)
  exact ⟨h.1, h.2.2 zohoDefaultConfig 0 (.error 500)⟩

/-- Claim C9, counterexample: `_save_tokens` writes the token file with
`open(TOKEN_FILE, "w")` followed by `json.dump` — no temporary file, no
rename — so it does not use an atomic replace discipline, and a write
interrupted right after the truncating open leaves an empty file,
neither the previous valid record nor the new one. -/
theorem c9_counterexample :
    specAtomicReplace (_save_tokens_file_ops "new-json") = false
    ∧ runFileOps "old-json" (List.take 1 (_save_tokens_file_ops "new-json")) = "" := by
  exact ⟨rfl, rfl⟩

/-- Claim C9 (amended): every save writes the merged record by truncating
the token file in place (`open` with mode "w", then the dump, then
chmod 0o600); no temporary file or rename is involved, so the write is
not atomic: interrupted after the truncating open, the file holds
neither the old nor the new content. -/
theorem c9_save_discipline (c old : String) (hc : c ≠ "") (hold : old ≠ "") :
    _save_tokens_file_ops c
      = [FileOp.openTruncate, FileOp.writeContent c, FileOp.chmod 0o600]
    ∧ specAtomicReplace (_save_tokens_file_ops c) = false
    ∧ runFileOps old (List.take 1 (_save_tokens_file_ops c)) ≠ old
    ∧ runFileOps old (List.take 1 (_save_tokens_file_ops c)) ≠ c := by
  refine ⟨rfl, rfl, ?_, ?_⟩
  · show ("" : String) ≠ old
    exact fun hemp => hold hemp.symm
  · show ("" : String) ≠ c
    exact fun hemp => hc hemp.symm

/-- Claim C9, witness: saving serialized content "tokens-v2" over
previous content "tokens-v1". -/
theorem c9_save_discipline_witness :
    specAtomicReplace (_save_tokens_file_ops "tokens-v2") = false
    ∧ runFileOps "tokens-v1" (List.take 1 (_save_tokens_file_ops "tokens-v2"))
      ≠ "tokens-v1" := by
  have h := c9_save_discipline "tokens-v2" "tokens-v1" (by decide) (by decide)
  exact ⟨h.2.1, h.2.2.1⟩

/-- Claim C10: when a successful token-endpoint response has no
expires_in key, both `exchange_code_for_tokens` and
`refresh_access_token` succeed (no failure, no already-expired record)
and set the held record's expires_at to the call time plus the 3600
default. -/
theorem c10_default_expiry (s : ManagerState) (now : Int) (r : TokenResponse)
    (td : TokenRecord) (rt : String)
    (hr : r.expires_in = none) (hs : s.token_data = some td)
    (hrt : td.refresh_token = some rt) :
    (∃ p, exchange_code_for_tokens s now (.ok r) = .ok p)
    ∧ (∀ s1 td1, exchange_code_for_tokens s now (.ok r) = .ok (s1, td1) →
        td1.expires_at = some (now + 3600) ∧ s1.token_data = some td1)
    ∧ (∃ p, refresh_access_token s now (.ok r) = .ok p)
    ∧ (∀ s1 td1, refresh_access_token s now (.ok r) = .ok (s1, td1) →
        td1.expires_at = some (now + 3600) ∧ s1.token_data = some td1) := by
  refine ⟨⟨_, rfl⟩, ?_, ?_, ?_⟩
  · intro s1 td1 h
    simp only [exchange_code_for_tokens, _save_tokens, Except.ok.injEq, Prod.mk.injEq] at h
    obtain ⟨hs1, htd1⟩ := h
    subst hs1; subst htd1
    refine ⟨?_, rfl⟩
    rw [mergeRefreshToken_expires_at]
    simp [recordOfResponse, hr]
  · simp only [refresh_access_token, hs, hrt]
    exact ⟨_, rfl⟩
  · intro s1 td1 h
    rw [refresh_access_token, hs] at h
    simp only [hrt, _save_tokens, Except.ok.injEq, Prod.mk.injEq] at h
    obtain ⟨hs1, htd1⟩ := h
    subst hs1; subst htd1
    refine ⟨?_, rfl⟩
    rw [mergeRefreshToken_expires_at]
    simp [hr]

/-- Claim C10, witness: refreshing `c5State` at time 1000 with a
response lacking expires_in yields a record expiring at 4600. -/
theorem c10_default_expiry_witness :
    c10OutRecord.expires_at = some 4600
    ∧ c10OutState.token_data = some c10OutRecord := by
  have h := (c10_default_expiry c5State 1000 c10Resp c4Record "rt-0" rfl rfl rfl).2.2.2
    c10OutState c10OutRecord (by rfl)
  exact h

end Zoho
